import Mathlib

/-!
Shallow embedding of the `ptxcompiler` package (files
`ptxcompiler/api.py` and `ptxcompiler/patch.py`) and proofs about the
claims of its specification.

Python exceptions are modelled with `Except`; machine-level side effects
(native-library calls, subprocess spawning, warnings) are made explicit
in the return values as event traces and boolean flags.
-/

deriving instance DecidableEq for Except

namespace Ptxc

/-! ## Embedding of `ptxcompiler/api.py` -/

/-- Python exception values as far as `compile_ptx` distinguishes them:
`except RuntimeError` catches exactly the `runtimeError` constructor. -/
inductive PyErr where
  | runtimeError (msg : String)
  | other (msg : String)
deriving DecidableEq, Repr

/-- Opaque native compiler handle produced by `_ptxcompilerlib.create`. -/
def Handle : Type := Nat

instance : DecidableEq Handle := instDecidableEqNat

instance : OfNat Handle 0 := ⟨(0 : Nat)⟩

/-- Interface of the native `_ptxcompilerlib` binding consumed by
`compile_ptx`: each operation may return a value or raise. `destroy`
is modelled as infallible (it is only observed through the call trace). -/
structure NativeLib where
  create : String → Except PyErr Handle
  compile : Handle → List String → Except PyErr Unit
  get_error_log : Handle → Except PyErr String
  get_compiled_program : Handle → Except PyErr String
  get_info_log : Handle → Except PyErr String

/-- The `PTXCompilerResult` namedtuple of `api.py`. -/
structure PTXCompilerResult where
  compiled_program : String
  info_log : String
deriving DecidableEq, Repr

/-- Native-library calls made during one `compile_ptx` invocation,
in order. -/
inductive Event where
  | create
  | compile
  | get_error_log
  | get_compiled_program
  | get_info_log
  | destroy
deriving DecidableEq, Repr

/-- Embedding of `compile_ptx` (`api.py` lines 25-42). The second
component is the trace of native calls made. Control flow mirrors the
Python exactly: `except RuntimeError` around `compile` (a non-RuntimeError
from `compile` propagates with no cleanup; an exception raised by
`get_error_log` inside the handler also propagates with no cleanup),
then a `try ... finally destroy` around the two success-path getters. -/
def compile_ptx (lib : NativeLib) (ptx : String) (options : List String) :
    Except PyErr PTXCompilerResult × List Event :=
  match lib.create ptx with
  | .error e => (.error e, [.create])
  | .ok handle =>
    match lib.compile handle options with
    | .ok _ =>
      match lib.get_compiled_program handle with
      | .error e =>
        (.error e, [.create, .compile, .get_compiled_program, .destroy])
      | .ok compiled_program =>
        match lib.get_info_log handle with
        | .error e =>
          (.error e,
           [.create, .compile, .get_compiled_program, .get_info_log, .destroy])
        | .ok info_log =>
          (.ok ⟨compiled_program, info_log⟩,
           [.create, .compile, .get_compiled_program, .get_info_log, .destroy])
    | .error (.other m) => (.error (.other m), [.create, .compile])
    | .error (.runtimeError _) =>
      match lib.get_error_log handle with
      | .error e => (.error e, [.create, .compile, .get_error_log])
      | .ok error_log =>
        (.error (.runtimeError error_log),
         [.create, .compile, .get_error_log, .destroy])

/-- Number of `destroy` calls in a trace. -/
def destroyCount (trace : List Event) : Nat :=
  trace.count .destroy

/-! ## Python primitives used by `patch.py` -/

/-- Characters `str.split()` and `int()` treat as whitespace. -/
def pySpace (c : Char) : Bool :=
  c = ' ' || c = '\t' || c = '\n' || c = '\r' || c = '\x0b' || c = '\x0c'

/-- Numeric value of a digit string. -/
def digitsToNat (cs : List Char) : Nat :=
  cs.foldl (fun a c => a * 10 + (c.toNat - 48)) 0

/-- Strip leading and trailing whitespace from a character list. -/
def stripSpaces (cs : List Char) : List Char :=
  ((cs.dropWhile pySpace).reverse.dropWhile pySpace).reverse

/-- Model of Python `int(s)` on a character list: surrounding whitespace,
an optional sign, then one or more decimal digits; anything else raises
`ValueError`, modelled as `none`. -/
def pyIntChars? (cs : List Char) : Option Int :=
  match stripSpaces cs with
  | '-' :: rest =>
    if !rest.isEmpty && rest.all Char.isDigit then
      some (-(digitsToNat rest : Int))
    else none
  | '+' :: rest =>
    if !rest.isEmpty && rest.all Char.isDigit then
      some (digitsToNat rest : Int)
    else none
  | rest =>
    if !rest.isEmpty && rest.all Char.isDigit then
      some (digitsToNat rest : Int)
    else none

/-- Model of Python `int(s)` on a string. -/
def pyInt? (s : String) : Option Int :=
  pyIntChars? s.data

/-- Model of Python `s.split()` (split on whitespace runs, no empty
tokens), accumulating the current word in reverse. -/
def pyWordsAux : List Char → List Char → List (List Char)
  | [], acc => if acc.isEmpty then [] else [acc.reverse]
  | c :: cs, acc =>
    if pySpace c then
      if acc.isEmpty then pyWordsAux cs [] else acc.reverse :: pyWordsAux cs []
    else pyWordsAux cs (c :: acc)

/-- Model of Python `s.split()`. -/
def pyWords (cs : List Char) : List (List Char) :=
  pyWordsAux cs []

/-- Model of Python `s.split(".")`: empty pieces are kept, and the empty
string splits to one empty piece. -/
def splitDot : List Char → List (List Char)
  | [] => [[]]
  | c :: cs =>
    if c = '.' then [] :: splitDot cs
    else
      match splitDot cs with
      | piece :: rest => (c :: piece) :: rest
      | [] => [[c]]

/-- Model of `tuple(map(int, s.split(".")))`: `none` when any piece fails
to parse as an integer (`ValueError`). -/
def pyParseVer (s : String) : Option (List Int) :=
  (splitDot s.data).mapM pyIntChars?

/-! ## Embedding of `ptxcompiler/patch.py` -/

/-- A Python version value as it flows through `patch.py`: either the
float `math.inf` (a component of the `NO_DRIVER` sentinel) or a tuple of
integers. -/
inductive PyVer where
  | infty
  | tup (xs : List Int)
deriving DecidableEq, Repr

/-- The `NO_DRIVER` sentinel `(math.inf, math.inf)` (`patch.py` line 29),
as it is unpacked by callers into a driver part and a runtime part. -/
def NO_DRIVER : PyVer × PyVer := (.infty, .infty)

/-- Python `<` on integer tuples: lexicographic, a strict prefix is
smaller. -/
def pyListLt : List Int → List Int → Bool
  | [], [] => false
  | [], _ :: _ => true
  | _ :: _, [] => false
  | x :: xs, y :: ys => x < y || (x == y && pyListLt xs ys)

/-- Python `<` on the version values of `patch.py`: `inf < inf` is
`False`, tuples compare lexicographically, and comparing a tuple with a
float raises `TypeError` (unreachable in the source, which always
compares like with like). -/
def pyVerLt : PyVer → PyVer → Except String Bool
  | .infty, .infty => .ok false
  | .tup xs, .tup ys => .ok (pyListLt xs ys)
  | _, _ => .error "TypeError"

/-- The four environment variables `patch.py` reads; `none` is an unset
variable. -/
structure Env where
  apply_patch : Option String
  check_patch_needed : Option String
  known_driver : Option String
  known_runtime : Option String
deriving DecidableEq, Repr

/-- Outcome of the probe subprocess spawned by `get_versions`: its exit
status and captured output streams (already decoded to text). -/
structure ProbeResult where
  returncode : Int
  stdout : String
  stderr : String
deriving DecidableEq, Repr

/-- The message logged by `get_versions` when the probe subprocess exits
with a non-zero status (`patch.py` lines 202-206), nested so that the
captured stream texts appear verbatim. -/
def versionsErrMsg (cp : ProbeResult) : String :=
  "Error getting driver and runtime versions:\n\nstdout:\n\n" ++
    (cp.stdout ++ ("\n\nstderr:\n\n" ++ (cp.stderr ++ "\n\nNot patching Numba")))

/-- Result of `get_versions`: the returned value (or an uncaught
exception) together with the error message handed to `logger.error`,
when one was. -/
structure GetVersionsResult where
  result : Except String (PyVer × PyVer)
  errorDetail : Option String
deriving DecidableEq, Repr

/-- Embedding of `get_versions` (`patch.py` lines 198-217). On a
non-zero exit status it logs the captured output and returns
`NO_DRIVER`. Otherwise it parses the child's stdout into integers (an
unparsable token raises `ValueError`), splits them as `[:2]` and `[2:]`,
and the two `logger.debug("... %s.%s" % v)` lines raise `TypeError`
unless each tuple has exactly two elements. -/
def get_versions (cp : ProbeResult) : GetVersionsResult :=
  if cp.returncode ≠ 0 then
    { result := .ok NO_DRIVER, errorDetail := some (versionsErrMsg cp) }
  else
    match (pyWords cp.stdout.data).mapM pyIntChars? with
    | none => { result := .error "ValueError", errorDetail := none }
    | some versions =>
      let driver_version := versions.take 2
      let runtime_version := versions.drop 2
      if driver_version.length = 2 ∧ runtime_version.length = 2 then
        { result := .ok (.tup driver_version, .tup runtime_version),
          errorDetail := none }
      else
        { result := .error "TypeError", errorDetail := none }

/-- Embedding of `patch_forced_by_user` (`patch.py` lines 149-161): the
force variable must be set and parse as a nonzero integer; a
`ValueError` from `int()` is caught and treated as `False`. -/
def patch_forced_by_user (env : Env) : Bool :=
  match env.apply_patch with
  | none => false
  | some v =>
    match pyInt? v with
    | some n => n ≠ 0
    | none => false

/-- Embedding of `check_disabled_in_env` (`patch.py` lines 164-178): an
unset check variable means checking is enabled; a set value that parses
as `0`, or fails to parse as an integer (caught `ValueError`, `check =
False`), disables checking. -/
def check_disabled_in_env (env : Env) : Bool :=
  match env.check_patch_needed with
  | none => false
  | some v =>
    match pyInt? v with
    | some n => n == 0
    | none => true

/-- Outcome of `patch_needed`: its boolean return value (or an uncaught
exception) and whether the probe subprocess was spawned on the way. -/
structure Decision where
  result : Except String Bool
  spawned : Bool
deriving DecidableEq, Repr

/-- Embedding of `patch_needed` (`patch.py` lines 181-195), parametrised
by the module-level `_numba_version_ok` flag and by the outcome the
probe subprocess would have. -/
def patch_needed (numba_version_ok : Bool) (env : Env) (cp : ProbeResult) :
    Decision :=
  if !numba_version_ok then { result := .ok false, spawned := false }
  else if patch_forced_by_user env then { result := .ok true, spawned := false }
  else if check_disabled_in_env env then { result := .ok false, spawned := false }
  else
    match (get_versions cp).result with
    | .error e => { result := .error e, spawned := true }
    | .ok (driver_version, runtime_version) =>
      { result := pyVerLt driver_version runtime_version, spawned := true }

/-- Outcome of `safe_get_versions`: its returned pair (or an uncaught
exception), whether `warnings.warn` was called, and whether the probe
subprocess was spawned. -/
structure SafeResult where
  result : Except String (PyVer × PyVer)
  warned : Bool
  spawned : Bool
deriving DecidableEq, Repr

/-- Embedding of `safe_get_versions` (`patch.py` lines 220-250). With
checking disabled, both known-version variables are looked up and parsed
inside one `try`: a missing variable (`KeyError`) or an unparsable piece
(`ValueError`) lands in the handler, which warns and returns
`NO_DRIVER`. With checking enabled it delegates to `get_versions`. -/
def safe_get_versions (env : Env) (cp : ProbeResult) : SafeResult :=
  if check_disabled_in_env env then
    match env.known_driver, env.known_runtime with
    | some dv, some rv =>
      match pyParseVer dv, pyParseVer rv with
      | some driver_version, some runtime_version =>
        { result := .ok (.tup driver_version, .tup runtime_version),
          warned := false, spawned := false }
      | _, _ => { result := .ok NO_DRIVER, warned := true, spawned := false }
    | _, _ => { result := .ok NO_DRIVER, warned := true, spawned := false }
  else
    { result := (get_versions cp).result, warned := false, spawned := true }

/-! ## Embedding of `PTXStaticCompileCodeLibrary.get_cubin` -/

/-- The state of a `PTXStaticCompileCodeLibrary` instance that
`get_cubin` reads: the per-architecture cubin cache, the PTX fragments
`self._get_ptxes(cc)` would return, the `_max_registers` attribute, and
the compute capability the device context would report when `cc` is
`None`. -/
structure CodeLibrary where
  cubin_cache : List ((Nat × Nat) × String)
  get_ptxes : Nat × Nat → List String
  max_registers : Option Nat
  device_cc : Nat × Nat

/-- Model of `self._cubin_cache.get(cc, None)` on the association-list
cache. -/
def lookupCache (cache : List ((Nat × Nat) × String)) (cc : Nat × Nat) :
    Option String :=
  match cache with
  | [] => none
  | (k, v) :: rest => if k = cc then some v else lookupCache rest cc

/-- The fall-through body of `get_cubin` after the cache test fails
(`patch.py` lines 117-133): reject multiple PTX fragments, build the
option list, compile, and return the compiled program. The second
component records whether `compile_ptx` was invoked, the third is the
cubin cache after the call (the source never writes to it). -/
def getCubinCompilePath (lib : NativeLib) (self : CodeLibrary)
    (cc : Nat × Nat) : Except PyErr String × Bool × List ((Nat × Nat) × String) :=
  let ptxes := self.get_ptxes cc
  if ptxes.length > 1 then
    (.error (.runtimeError
      "Cannot link multiple PTX files with forward compatibility"),
     false, self.cubin_cache)
  else
    let arch := "sm_" ++ (toString cc.1 ++ toString cc.2)
    let options :=
      ["--gpu-name=" ++ arch] ++
        (match self.max_registers with
         | some n => if n ≠ 0 then ["--maxrregcount=" ++ toString n] else []
         | none => [])
    match ptxes.head? with
    | none => (.error (.other "IndexError"), false, self.cubin_cache)
    | some ptx =>
      match (compile_ptx lib ptx options).1 with
      | .error e => (.error e, true, self.cubin_cache)
      | .ok res => (.ok res.compiled_program, true, self.cubin_cache)

/-- Embedding of `PTXStaticCompileCodeLibrary.get_cubin` (`patch.py`
lines 107-133). A `None` capability is replaced by the device context's;
`if cubin:` takes a cached entry only when it is truthy (present and
non-empty). -/
def get_cubin (lib : NativeLib) (self : CodeLibrary)
    (ccArg : Option (Nat × Nat)) :
    Except PyErr String × Bool × List ((Nat × Nat) × String) :=
  let cc := match ccArg with
    | none => self.device_cc
    | some c => c
  match lookupCache self.cubin_cache cc with
  | some cubin =>
    if cubin ≠ "" then (.ok cubin, false, self.cubin_cache)
    else getCubinCompilePath lib self cc
  | none => getCubinCompilePath lib self cc

/-! ## Concrete instances used in witnesses and counterexamples -/

/-- A native library on which every operation succeeds. -/
def okLib : NativeLib where
  create := fun _ => .ok 0
  compile := fun _ _ => .ok ()
  get_error_log := fun _ => .ok "elog"
  get_compiled_program := fun _ => .ok "CUBIN"
  get_info_log := fun _ => .ok "ilog"

/-- A native library whose `compile` fails with a `RuntimeError` while
the error log is still retrievable. -/
def failLib : NativeLib where
  create := fun _ => .ok 0
  compile := fun _ _ => .error (.runtimeError "bad")
  get_error_log := fun _ => .ok "elog"
  get_compiled_program := fun _ => .ok "CUBIN"
  get_info_log := fun _ => .ok "ilog"

/-- A native library whose `compile` fails with a `RuntimeError` and
whose `get_error_log` then raises as well. -/
def badLogLib : NativeLib where
  create := fun _ => .ok 0
  compile := fun _ _ => .error (.runtimeError "bad")
  get_error_log := fun _ => .error (.other "boom")
  get_compiled_program := fun _ => .ok "CUBIN"
  get_info_log := fun _ => .ok "ilog"

/-- A code library with an empty cubin cache and one PTX fragment for
every architecture. -/
def singlePtxSelf : CodeLibrary where
  cubin_cache := []
  get_ptxes := fun _ => ["ptx0"]
  max_registers := none
  device_cc := (0, 0)

/-- A code library with an empty cubin cache and two PTX fragments for
every architecture. -/
def multiPtxSelf : CodeLibrary where
  cubin_cache := []
  get_ptxes := fun _ => ["ptx0", "ptx1"]
  max_registers := none
  device_cc := (0, 0)

/-! ## Claims -/

/-- C1: with the Numba version acceptable, the force directive not in
effect and probing not disabled, `patch_needed` returns `True` exactly
when the probed driver pair is lexicographically below the probed
runtime pair, and equal pairs yield `False`. -/
theorem C1_patch_iff_driver_lt_runtime (env : Env) (cp : ProbeResult)
    (d1 d2 r1 r2 : Int)
    (hforce : patch_forced_by_user env = false)
    (hcheck : check_disabled_in_env env = false)
    (hprobe : (get_versions cp).result = .ok (.tup [d1, d2], .tup [r1, r2])) :
    ((patch_needed true env cp).result = .ok true ↔
      (d1 < r1 ∨ (d1 = r1 ∧ d2 < r2))) ∧
    (d1 = r1 → d2 = r2 → (patch_needed true env cp).result = .ok false) := by
  have h : (patch_needed true env cp).result =
      .ok (pyListLt [d1, d2] [r1, r2]) := by
    simp [patch_needed, hforce, hcheck, hprobe, pyVerLt]
  rw [h]
  constructor
  · simp [pyListLt]
  · intro h1 h2
    subst h1; subst h2
    simp [pyListLt]

/-- Witness for C1 at the spec scenario driver (11, 2), runtime (11, 5). -/
theorem C1_witness :
    (get_versions ⟨0, "11 2 11 5", ""⟩).result =
      .ok (.tup [11, 2], .tup [11, 5]) ∧
    ((patch_needed true ⟨none, none, none, none⟩ ⟨0, "11 2 11 5", ""⟩).result =
        .ok true ↔ ((11 : Int) < 11 ∨ ((11 : Int) = 11 ∧ (2 : Int) < 5))) :=
  ⟨by decide,
   (C1_patch_iff_driver_lt_runtime ⟨none, none, none, none⟩ ⟨0, "11 2 11 5", ""⟩
      11 2 11 5 (by decide) (by decide) (by decide)).1⟩

/-- C2 counterexample: the claim that the handle is destroyed exactly
once on every exit path (including an error raised while retrieving the
error log) is false: on `badLogLib`, `compile` fails, `get_error_log`
raises, and `destroy` is never called. -/
theorem C2_counterexample :
    ¬ (∀ (lib : NativeLib) (ptx : String) (options : List String)
        (h : Handle), lib.create ptx = .ok h →
        destroyCount (compile_ptx lib ptx options).2 = 1) := by
  intro hcl
  have := hcl badLogLib "p" [] 0 rfl
  exact absurd this (by decide)

/-- C2 amended: the handle is destroyed exactly once when `compile`
succeeds (even if retrieving the compiled program or the info log then
raises), and when `compile` fails with a `RuntimeError` and the error
log is retrieved successfully; an error raised by the error-log
retrieval itself escapes before `destroy`. -/
theorem C2_destroyed_once (lib : NativeLib) (ptx : String)
    (options : List String) (h : Handle)
    (hcreate : lib.create ptx = .ok h)
    (hok : lib.compile h options = .ok () ∨
      ((∃ m, lib.compile h options = .error (.runtimeError m)) ∧
        ∃ log, lib.get_error_log h = .ok log)) :
    destroyCount (compile_ptx lib ptx options).2 = 1 := by
  rcases hok with hc | ⟨⟨m, hc⟩, log, hl⟩
  · cases hcp : lib.get_compiled_program h with
    | error e => simp [compile_ptx, hcreate, hc, hcp, destroyCount]
    | ok prog =>
      cases hil : lib.get_info_log h <;>
        simp [compile_ptx, hcreate, hc, hcp, hil, destroyCount]
  · simp [compile_ptx, hcreate, hc, hl, destroyCount]

/-- Witness for C2 on the all-succeeding library. -/
theorem C2_witness :
    okLib.create "p" = .ok 0 ∧ okLib.compile 0 [] = .ok () ∧
    destroyCount (compile_ptx okLib "p" []).2 = 1 :=
  ⟨rfl, rfl, C2_destroyed_once okLib "p" [] 0 rfl (.inl rfl)⟩

/-- C3 counterexample: with probing disabled and parsable known driver
and runtime versions supplied, the claim says the patch decision
compares them; in the code `patch_needed` returns `False` regardless
(it never consults the known-version variables). -/
theorem C3_counterexample :
    ¬ (∀ (env : Env) (cp : ProbeResult) (dv rv : String) (d r : List Int),
        check_disabled_in_env env = true →
        env.known_driver = some dv → env.known_runtime = some rv →
        pyParseVer dv = some d → pyParseVer rv = some r →
        (patch_needed true env cp).result = .ok (pyListLt d r)) := by
  intro hcl
  have := hcl ⟨none, some "0", some "11.2", some "11.5"⟩ ⟨0, "", ""⟩
      "11.2" "11.5" [11, 2] [11, 5] (by decide) rfl rfl (by decide) (by decide)
  exact absurd this (by decide)

/-- C3 amended: with probing disabled, `patch_needed` declines to patch
without spawning a subprocess, warning, or consulting the known-version
variables; the helper `safe_get_versions` is the function that, without
spawning, returns supplied parsable versions for its callers to compare
and warns (returning `NO_DRIVER`) when they are missing or unparsable. -/
theorem C3_skip_probing (env : Env) (cp : ProbeResult)
    (hforce : patch_forced_by_user env = false)
    (hcheck : check_disabled_in_env env = true) :
    patch_needed true env cp = { result := .ok false, spawned := false } ∧
    (∀ dv rv d r, env.known_driver = some dv → env.known_runtime = some rv →
      pyParseVer dv = some d → pyParseVer rv = some r →
      safe_get_versions env cp =
        { result := .ok (.tup d, .tup r), warned := false, spawned := false }) ∧
    (¬ (∃ dv rv d r, env.known_driver = some dv ∧ env.known_runtime = some rv ∧
        pyParseVer dv = some d ∧ pyParseVer rv = some r) →
      safe_get_versions env cp =
        { result := .ok NO_DRIVER, warned := true, spawned := false }) := by
  refine ⟨?_, ?_, ?_⟩
  · simp [patch_needed, hforce, hcheck]
  · intro dv rv d r hdv hrv hd hr
    simp [safe_get_versions, hcheck, hdv, hrv, hd, hr]
  · intro hnone
    unfold safe_get_versions
    rw [if_pos hcheck]
    cases hdv : env.known_driver with
    | none => rfl
    | some dv =>
      cases hrv : env.known_runtime with
      | none => rfl
      | some rv =>
        cases hd : pyParseVer dv with
        | none => simp [hd]
        | some d =>
          cases hr : pyParseVer rv with
          | none => simp [hd, hr]
          | some r => exact absurd ⟨dv, rv, d, r, hdv, hrv, hd, hr⟩ hnone

/-- Witness for C3 with probing disabled and known versions 11.2 and
11.5 supplied. -/
theorem C3_witness :
    patch_forced_by_user ⟨none, some "0", some "11.2", some "11.5"⟩ = false ∧
    check_disabled_in_env ⟨none, some "0", some "11.2", some "11.5"⟩ = true ∧
    patch_needed true ⟨none, some "0", some "11.2", some "11.5"⟩ ⟨1, "", ""⟩ =
      { result := .ok false, spawned := false } :=
  ⟨by decide, by decide,
   (C3_skip_probing ⟨none, some "0", some "11.2", some "11.5"⟩ ⟨1, "", ""⟩
      (by decide) (by decide)).1⟩

/-- C4 (code bug): on an empty cache with a single PTX fragment for
capability (7, 5), `get_cubin` compiles and returns the cubin, but the
cubin cache is left empty — the source reads `_cubin_cache` yet never
writes to it — so a second call for the same capability compiles again
instead of reusing a cached result. -/
theorem C4_cubin_not_cached :
    get_cubin okLib singlePtxSelf (some (7, 5)) = (.ok "CUBIN", true, []) ∧
    lookupCache (get_cubin okLib singlePtxSelf (some (7, 5))).2.2 (7, 5) =
      none ∧
    (get_cubin okLib
        { singlePtxSelf with
            cubin_cache := (get_cubin okLib singlePtxSelf (some (7, 5))).2.2 }
        (some (7, 5))).2.1 = true := by
  decide

/-- C5: when the force directive is in effect (the variable is set to a
value that parses as a nonzero integer) and the Numba version is
acceptable, `patch_needed` returns `True` whatever the probe would have
reported, and no subprocess is spawned. -/
theorem C5_forced_patches_without_probe (env : Env) (cp : ProbeResult)
    (hforce : patch_forced_by_user env = true) :
    patch_needed true env cp = { result := .ok true, spawned := false } := by
  simp [patch_needed, hforce]

/-- Witness for C5 with the force variable set to 1 and a probe that
would have failed. -/
theorem C5_witness :
    patch_forced_by_user ⟨some "1", none, none, none⟩ = true ∧
    patch_needed true ⟨some "1", none, none, none⟩ ⟨1, "x", "y"⟩ =
      { result := .ok true, spawned := false } :=
  ⟨by decide,
   C5_forced_patches_without_probe ⟨some "1", none, none, none⟩ ⟨1, "x", "y"⟩
     (by decide)⟩

/-- C6: when the probe subprocess exits with a non-zero status,
`patch_needed` returns `False` (no exception is raised), and the logged
error detail contains the captured stdout and stderr texts verbatim. -/
theorem C6_probe_failure_degrades (env : Env) (cp : ProbeResult)
    (hrc : cp.returncode ≠ 0)
    (hforce : patch_forced_by_user env = false)
    (hcheck : check_disabled_in_env env = false) :
    (patch_needed true env cp).result = .ok false ∧
    ∃ msg, (get_versions cp).errorDetail = some msg ∧
      (∃ a b, msg.data = a ++ (cp.stdout.data ++ b)) ∧
      (∃ a b, msg.data = a ++ (cp.stderr.data ++ b)) := by
  have hv : get_versions cp =
      { result := .ok NO_DRIVER, errorDetail := some (versionsErrMsg cp) } := by
    unfold get_versions
    rw [if_pos hrc]
  refine ⟨?_, versionsErrMsg cp, by rw [hv], ?_, ?_⟩
  · simp [patch_needed, hforce, hcheck, hv, NO_DRIVER, pyVerLt]
  · exact ⟨("Error getting driver and runtime versions:\n\nstdout:\n\n" : String).data,
      ("\n\nstderr:\n\n" ++ (cp.stderr ++ "\n\nNot patching Numba")).data,
      by simp [versionsErrMsg]⟩
  · exact ⟨("Error getting driver and runtime versions:\n\nstdout:\n\n" ++
        (cp.stdout ++ "\n\nstderr:\n\n")).data,
      ("\n\nNot patching Numba" : String).data,
      by simp [versionsErrMsg]⟩

/-- Witness for C6 on a probe that exits 1 with stdout OUT and stderr
ERR. -/
theorem C6_witness :
    (ProbeResult.mk 1 "OUT" "ERR").returncode ≠ 0 ∧
    ((patch_needed true ⟨none, none, none, none⟩ ⟨1, "OUT", "ERR"⟩).result =
        .ok false ∧
      ∃ msg, (get_versions ⟨1, "OUT", "ERR"⟩).errorDetail = some msg ∧
        (∃ a b, msg.data = a ++ (("OUT" : String).data ++ b)) ∧
        (∃ a b, msg.data = a ++ (("ERR" : String).data ++ b))) :=
  ⟨by decide,
   C6_probe_failure_degrades ⟨none, none, none, none⟩ ⟨1, "OUT", "ERR"⟩
     (by decide) (by decide) (by decide)⟩

/-- C7: when `compile` fails with a `RuntimeError` and the error log is
retrievable, `compile_ptx` raises a `RuntimeError` carrying exactly the
retrieved error log, and the call trace retrieves the error log strictly
before destroying the handle (which is destroyed exactly once). -/
theorem C7_error_log_before_destroy (lib : NativeLib) (ptx : String)
    (options : List String) (h : Handle) (m log : String)
    (hcreate : lib.create ptx = .ok h)
    (hcompile : lib.compile h options = .error (.runtimeError m))
    (hlog : lib.get_error_log h = .ok log) :
    compile_ptx lib ptx options =
      (.error (.runtimeError log),
       [.create, .compile, .get_error_log, .destroy]) := by
  simp [compile_ptx, hcreate, hcompile, hlog]

/-- Witness for C7 on the library whose compile fails with error log
elog. -/
theorem C7_witness :
    failLib.create "p" = .ok 0 ∧
    failLib.compile 0 [] = .error (.runtimeError "bad") ∧
    failLib.get_error_log 0 = .ok "elog" ∧
    compile_ptx failLib "p" [] =
      (.error (.runtimeError "elog"),
       [.create, .compile, .get_error_log, .destroy]) :=
  ⟨rfl, rfl, rfl,
   C7_error_log_before_destroy failLib "p" [] 0 "bad" "elog" rfl rfl rfl⟩

/-- C8: with no cached cubin for the requested capability and more than
one PTX fragment, `get_cubin` raises the unsupported-link RuntimeError
without invoking the compiler. -/
theorem C8_multiple_ptx_rejected (lib : NativeLib) (self : CodeLibrary)
    (cc : Nat × Nat)
    (hcache : lookupCache self.cubin_cache cc = none)
    (hmulti : (self.get_ptxes cc).length > 1) :
    get_cubin lib self (some cc) =
      (.error (.runtimeError
        "Cannot link multiple PTX files with forward compatibility"),
       false, self.cubin_cache) := by
  simp [get_cubin, hcache, getCubinCompilePath, hmulti]

/-- Witness for C8 on a library with two PTX fragments and an empty
cache. -/
theorem C8_witness :
    lookupCache multiPtxSelf.cubin_cache (7, 5) = none ∧
    (multiPtxSelf.get_ptxes (7, 5)).length > 1 ∧
    get_cubin okLib multiPtxSelf (some (7, 5)) =
      (.error (.runtimeError
        "Cannot link multiple PTX files with forward compatibility"),
       false, multiPtxSelf.cubin_cache) :=
  ⟨by decide, by decide,
   C8_multiple_ptx_rejected okLib multiPtxSelf (7, 5) (by decide) (by decide)⟩

/-- C9: `patch_forced_by_user` is `True` exactly when the force variable
is set to a string parsing as a nonzero integer; in particular an unset
variable, the value 0 and the non-integer value true all yield
`False`. -/
theorem C9_forced_only_by_nonzero_integer :
    (∀ env : Env, patch_forced_by_user env = true ↔
      ∃ v n, env.apply_patch = some v ∧ pyInt? v = some n ∧ n ≠ 0) ∧
    (∀ c k r, patch_forced_by_user ⟨none, c, k, r⟩ = false) ∧
    (∀ c k r, patch_forced_by_user ⟨some "0", c, k, r⟩ = false) ∧
    (∀ c k r, patch_forced_by_user ⟨some "true", c, k, r⟩ = false) := by
  refine ⟨?_, fun _ _ _ => rfl, fun _ _ _ => rfl, fun _ _ _ => rfl⟩
  intro env
  constructor
  · intro h
    unfold patch_forced_by_user at h
    cases hv : env.apply_patch with
    | none => rw [hv] at h; exact absurd h (by decide)
    | some v =>
      rw [hv] at h
      cases hn : pyInt? v with
      | none => simp [hn] at h
      | some n =>
        simp [hn] at h
        exact ⟨v, n, rfl, hn, h⟩
  · rintro ⟨v, n, hv, hn, hne⟩
    unfold patch_forced_by_user
    rw [hv]
    simp [hn, hne]

/-- C10: with checking disabled and a known-version variable missing or
unparsable, `safe_get_versions` does not raise: it warns and returns the
`NO_DRIVER` sentinel (infinity for both the driver and the runtime
version). -/
theorem C10_safe_get_versions_no_raise (env : Env) (cp : ProbeResult)
    (hcheck : check_disabled_in_env env = true)
    (hbad : env.known_driver = none ∨ env.known_runtime = none ∨
      (∃ dv, env.known_driver = some dv ∧ pyParseVer dv = none) ∨
      (∃ rv, env.known_runtime = some rv ∧ pyParseVer rv = none)) :
    safe_get_versions env cp =
      { result := .ok NO_DRIVER, warned := true, spawned := false } := by
  unfold safe_get_versions
  rw [if_pos hcheck]
  cases hdv : env.known_driver with
  | none => rfl
  | some dv =>
    cases hrv : env.known_runtime with
    | none => rfl
    | some rv =>
      rcases hbad with h | h | ⟨dv2, hdv2, hp⟩ | ⟨rv2, hrv2, hp⟩
      · rw [hdv] at h; cases h
      · rw [hrv] at h; cases h
      · rw [hdv] at hdv2
        injection hdv2 with he
        subst he
        simp [hp]
      · rw [hrv] at hrv2
        injection hrv2 with he
        subst he
        cases hd : pyParseVer dv <;> simp [hd, hp]

/-- Witness for C10 with checking disabled and the known driver version
unset. -/
theorem C10_witness :
    check_disabled_in_env ⟨none, some "0", none, some "11.5"⟩ = true ∧
    safe_get_versions ⟨none, some "0", none, some "11.5"⟩ ⟨0, "", ""⟩ =
      { result := .ok NO_DRIVER, warned := true, spawned := false } :=
  ⟨by decide,
   C10_safe_get_versions_no_raise ⟨none, some "0", none, some "11.5"⟩
     ⟨0, "", ""⟩ (by decide) (.inl rfl)⟩

end Ptxc
